import Mathlib

/-!
# Verification of the Stevens Connect pull-observations integration

Shallow embedding of `app/actions/client.py`, `app/actions/configurations.py`
and `app/actions/handlers.py`.

Modelling conventions:
* Instants (`datetime` values compared and subtracted as aware UTC datetimes)
  are integers counting seconds since the Unix epoch.
* `timedelta(days=d)` is `d * 86400` seconds.
* Python `float` fields (`reading`, `latitude`, `longitude`) are modelled as
  `Rat`; no claim depends on floating-point rounding or on the exact textual
  rendering of numbers, only on the structure of the produced records.
* Python dicts whose keys are fixed in the source (`channel_health`, `paging`)
  are modelled by records holding exactly the keys the source accesses.
* Python dicts used as growable maps (`readings_additional`,
  `grouped_readings`) are association lists with Python's dict semantics:
  updating an existing key keeps its position, a new key is appended at the
  end (insertion order).
-/

namespace StevensConnect

/-! ## Domain model (`app/actions/client.py`) -/

/-- The `channel_health` dict of a channel. The source reads exactly two keys:
`channel_health.get('health')` (in `transform`) and
`channel_health["last_reading"]` (in `action_pull_observations`), so the dict
is modelled by those two fields. `health` is rendered into an f-string, so it
is kept as the string Python would interpolate (absent key → `"None"` via
`Option`). -/
structure ChannelHealth where
  health : Option String
  last_reading : String
  deriving Repr, DecidableEq

/-- `class Channel(pydantic.BaseModel)` from `client.py`. -/
structure Channel where
  id : String
  name : String
  unit_id : String
  channel_health : ChannelHealth
  deriving Repr, DecidableEq

/-- `class Sensor(pydantic.BaseModel)` from `client.py`. -/
structure Sensor where
  id : String
  name : String
  channels : List Channel
  deriving Repr, DecidableEq

/-- `class Station(pydantic.BaseModel)` from `client.py`.
`latitude`/`longitude` are `float` in the source, modelled as `Rat`. -/
structure Station where
  name : String
  latitude : Rat
  longitude : Rat
  sensors : List Sensor
  deriving Repr, DecidableEq

/-- `class Project(pydantic.BaseModel)` from `client.py`. -/
structure Project where
  id : String
  name : String
  stations : List Station
  deriving Repr, DecidableEq

/-- `class ChannelReading(pydantic.BaseModel)` from `client.py`. The
`timestamp` validator normalizes naive datetimes to UTC, so the model stores
the UTC instant directly. `reading: float` is modelled as `Rat`. -/
structure ChannelReading where
  channel_id : String
  reading : Rat
  timestamp : Int
  deriving Repr, DecidableEq

/-- `class Unit(pydantic.BaseModel)` from `client.py` (`id: int`). -/
structure Unit where
  id : Int
  name : String
  unit : String
  deriving Repr, DecidableEq

/-- `class ChannelReadingsResponse(pydantic.BaseModel)` from `client.py`.
`readings : dict[str, List[ChannelReading]]` is an insertion-ordered dict,
modelled as an association list. Of the `paging` dict the source reads only
`paging["last_page"]`, kept here as an `Int` field. -/
structure ChannelReadingsResponse where
  readings : List (String × List ChannelReading)
  last_page : Int
  deriving Repr, DecidableEq

/-- `class ProjectResponse(pydantic.BaseModel)` from `client.py`. -/
structure ProjectResponse where
  projects : List Project
  units : List Unit
  deriving Repr, DecidableEq

/-! ## `generate_date_pairs` (`handlers.py`, lines 23–26)

```python
def generate_date_pairs(lower_date, upper_date, interval=MAX_DAYS_PER_QUERY):
    while upper_date > lower_date:
        yield max(lower_date, upper_date - timedelta(days=interval)), upper_date
        upper_date -= timedelta(days=interval)
```

The generator is total whenever `interval ≥ 1` day (each step lowers
`upper_date` by at least one day). The Lean function recurses on fuel
`(upper - lower).toNat`, which bounds the number of iterations whenever
`interval ≥ 1`; for `interval = 0` the Python generator is infinite and the
model truncates it (no caller ever passes `interval = 0`: the only call site
uses the default). -/

def MAX_DAYS_PER_QUERY : Nat := 2

def generate_date_pairs_go (lower : Int) (interval : Nat) :
    Nat → Int → List (Int × Int)
  | 0, _ => []
  | fuel + 1, upper =>
    if lower < upper then
      (max lower (upper - interval * 86400), upper) ::
        generate_date_pairs_go lower interval fuel (upper - interval * 86400)
    else []

def generate_date_pairs (lower upper : Int)
    (interval : Nat := MAX_DAYS_PER_QUERY) : List (Int × Int) :=
  generate_date_pairs_go lower interval
    ((upper - lower).toNat / (interval * 86400) + 1) upper


/-! ## Configurations (`app/actions/configurations.py`) -/

/-- `class PullObservationsConfig(PullActionConfiguration)`:
`default_lookback_days: int` with default `7` and pydantic bounds
`ge=1, le=15`; `sensor_featured_properties: Optional[List[str]]`
(defaulting to `None`). UI-only metadata is not modelled. -/
structure PullObservationsConfig where
  default_lookback_days : Int := 7
  sensor_featured_properties : Option (List String) := none
  deriving Repr, DecidableEq

/-- The pydantic field constraint `ge=1, le=15` on `default_lookback_days`:
a config that passed validation satisfies this. -/
def PullObservationsConfig.Valid (c : PullObservationsConfig) : Prop :=
  1 ≤ c.default_lookback_days ∧ c.default_lookback_days ≤ 15

instance (c : PullObservationsConfig) : Decidable c.Valid :=
  inferInstanceAs (Decidable (_ ∧ _))

/-- The `station_info` dict built in `action_pull_observations`
(`handlers.py` lines 93–97). -/
structure StationInfo where
  station_name : String
  station_longitude : Rat
  station_latitude : Rat
  deriving Repr, DecidableEq

/-- `class PullSensorObservationsPerStationConfig(InternalActionConfiguration)`
as populated at its only construction site (`handlers.py` lines 121–128):
window start/stop, project id, station snapshot, sensor snapshot, unit
catalog snapshot. `configurations.py` also declares a
`sensor_featured_properties` field that the construction site never passes;
whether it is defaulted is decided by the `InternalActionConfiguration` base
class, which lives outside this repository's sources, so the field is
omitted. The `start` validator normalizes naive datetimes to UTC; instants
in this model are UTC already. `project_id: int` receives the catalog's
string id (pydantic coercion); the value is kept as the catalog string. -/
structure PullSensorObservationsPerStationConfig where
  start : Int
  stop : Int
  project_id : String
  station : StationInfo
  sensor : Sensor
  units : List Unit
  deriving Repr, DecidableEq

/-! ## Orchestrator (`app/actions/handlers.py`, `action_pull_observations`)

The handler's effects on its collaborators (the state manager and the action
scheduler) are captured as an ordered event trace. `datetime.now(timezone.utc)`
is modelled by a `clock : Nat → Int`: call `0` is the `now` captured at line
87, and call `k ≥ 1` is the per-sensor `stop_date` captured at line 117 for
the `k`-th processed sensor. The `dateparser.parse` library function is
external to the repository and is passed in as `dp : String → PyDateTime`. -/

/-- A Python `datetime`: wall-clock seconds plus an optional tzinfo offset in
seconds east of UTC (`none` = naive datetime). -/
structure PyDateTime where
  wall : Int
  tz : Option Int
  deriving Repr, DecidableEq

/-- The instant a datetime denotes, under the convention this codebase applies
everywhere (a naive datetime is read as UTC, cf. the `ChannelReading`
timestamp validator): wall clock minus the UTC offset. -/
def PyDateTime.instant (d : PyDateTime) : Int := d.wall - d.tz.getD 0

/-- `d.replace(tzinfo=timezone.utc)`: keep the wall clock, set the zone. -/
def PyDateTime.replace_tzinfo_utc (d : PyDateTime) : PyDateTime :=
  { wall := d.wall, tz := some 0 }

/-- The watermark store restricted to one integration and the fixed action id
`"pull_observations"` used by this handler: a map from `source_id` (the
sensor id) to the stored `updated_at` string. A state dict `{"updated_at": s}`
is always truthy, so `if not device_state:` is modelled by `Option`. -/
abbrev StateStore := List (String × String)

/-- `state_manager.get_state(integration_id, "pull_observations", source_id)`. -/
def get_state (store : StateStore) (source_id : String) : Option String :=
  store.lookup source_id

/-- `state_manager.set_state(...)`: overwrite the entry for `source_id`. -/
def set_state (store : StateStore) (source_id updated_at : String) :
    StateStore :=
  match store with
  | [] => [(source_id, updated_at)]
  | (k, v) :: rest =>
    if k == source_id then (k, updated_at) :: rest
    else (k, v) :: set_state rest source_id updated_at

/-- Observable side effects of one `action_pull_observations` run, in program
order: watermark lookups (`state_manager.get_state`), sub-task dispatches
(`trigger_action(integration.id, "pull_sensor_observations_per_station", …)`)
and watermark writes (`state_manager.set_state`). -/
inductive Event where
  | read (source_id : String)
  | dispatch (config : PullSensorObservationsPerStationConfig)
  | write (source_id : String) (updated_at : String)
  deriving Repr, DecidableEq

/-- The state threaded through the handler's nested loops. `error = true`
records that an uncaught exception (the `sensor.channels[0]` IndexError) has
aborted the run; effects already performed stay in `events`. -/
structure RunState where
  store : StateStore
  clock_idx : Nat
  events : List Event
  sensors_triggered : Nat
  error : Bool
  deriving Repr, DecidableEq

/-- `latest_time = ...last_reading.replace(" (UTC)", "")` scans left to right
and deletes every non-overlapping occurrence of the fixed pattern `" (UTC)"`
(Python `str.replace` with an empty replacement), character-list form. -/
def remove_utc_marks : List Char → List Char
  | ' ' :: '(' :: 'U' :: 'T' :: 'C' :: ')' :: rest => remove_utc_marks rest
  | c :: rest => c :: remove_utc_marks rest
  | [] => []

/-- `s.replace(" (UTC)", "")` on strings. -/
def py_replace_utc (s : String) : String := String.mk (remove_utc_marks s.data)

/-- Lines 105–115: the per-sensor window start. No watermark → `now` minus the
configured lookback; watermark present → `dateparser.parse` of its
`updated_at`, with `tzinfo` replaced by UTC. -/
def sensor_start_date (dp : String → PyDateTime) (now : Int)
    (action_config : PullObservationsConfig) (store : StateStore)
    (sensor : Sensor) : Int :=
  match get_state store sensor.id with
  | none => now - action_config.default_lookback_days * 86400
  | some updated_at => ((dp updated_at).replace_tzinfo_utc).instant

/-- Lines 103–141: one iteration of the sensor loop. Watermark lookup, window
generation, one dispatch per window, then the watermark write computed from
`sensor.channels[0].channel_health["last_reading"]` with every occurrence of
`" (UTC)"` removed (`str.replace`). An empty `channels` list makes
`sensor.channels[0]` raise after the dispatch loop, before the write. -/
def process_sensor (dp : String → PyDateTime) (clock : Nat → Int) (now : Int)
    (action_config : PullObservationsConfig) (project_id : String)
    (station_info : StationInfo) (units : List Unit) (sensor : Sensor)
    (s : RunState) : RunState :=
  if s.error then s else
  let start_date := sensor_start_date dp now action_config s.store sensor
  let stop_date := clock s.clock_idx
  let pairs := generate_date_pairs start_date stop_date
  let dispatched := pairs.map (fun lu => Event.dispatch
    { start := lu.1, stop := lu.2, project_id := project_id,
      station := station_info, sensor := sensor, units := units })
  match sensor.channels.head? with
  | none =>
    { s with clock_idx := s.clock_idx + 1,
             events := s.events ++ [Event.read sensor.id] ++ dispatched,
             sensors_triggered := s.sensors_triggered + pairs.length,
             error := true }
  | some channel0 =>
    let latest_time := py_replace_utc channel0.channel_health.last_reading
    { store := set_state s.store sensor.id latest_time,
      clock_idx := s.clock_idx + 1,
      events := s.events ++ [Event.read sensor.id] ++ dispatched ++
        [Event.write sensor.id latest_time],
      sensors_triggered := s.sensors_triggered + pairs.length,
      error := s.error }

/-- Line 99's hard-coded exclusion list. -/
def excluded_sensor_names : List String := ["Statistics", "Diagnostic Parameters"]

/-- `sensor.name not in ["Statistics", "Diagnostic Parameters"]`, negated:
whether the sensor is filtered out. Python `in` on strings is exact
(case- and whitespace-sensitive) equality. -/
def sensor_excluded (sensor : Sensor) : Bool :=
  excluded_sensor_names.contains sensor.name

/-- Lines 92–141: one iteration of the station loop. -/
def process_station (dp : String → PyDateTime) (clock : Nat → Int) (now : Int)
    (action_config : PullObservationsConfig) (project_id : String)
    (units : List Unit) (station : Station) (s : RunState) : RunState :=
  let station_info : StationInfo :=
    { station_name := station.name, station_longitude := station.longitude,
      station_latitude := station.latitude }
  (station.sensors.filter (fun sn => ! sensor_excluded sn)).foldl
    (fun s sn =>
      process_sensor dp clock now action_config project_id station_info units
        sn s) s

/-- Lines 89–141: one iteration of the project loop. -/
def process_project (dp : String → PyDateTime) (clock : Nat → Int) (now : Int)
    (action_config : PullObservationsConfig) (units : List Unit)
    (project : Project) (s : RunState) : RunState :=
  project.stations.foldl
    (fun s station =>
      process_station dp clock now action_config project.id units station s) s

/-- `action_pull_observations` (lines 77–154). `projects` is the value
returned by `client.get_projects`: `none` models a falsy result (the
"no projects found" branch), `some` the parsed catalog. The returned
`RunState` carries the final store, the ordered effect trace and the
`sensors_triggered` counter the handler returns. -/
def action_pull_observations (dp : String → PyDateTime) (clock : Nat → Int)
    (action_config : PullObservationsConfig) (store : StateStore)
    (projects : Option ProjectResponse) : RunState :=
  match projects with
  | none =>
    { store := store, clock_idx := 0, events := [], sensors_triggered := 0,
      error := false }
  | some pr =>
    let now := clock 0
    pr.projects.foldl
      (fun s project =>
        process_project dp clock now action_config pr.units project s)
      { store := store, clock_idx := 1, events := [], sensors_triggered := 0,
        error := false }
/-! ## `get_token` (`client.py`, lines 96–124) -/

/-- The parsed JSON body of an HTTP-success `/authenticate` response: either
falsy/empty (in which case the source returns `response.text`) or the
envelope `{data: {...}}`, whose `token` key is read with `.get("token")`
(possibly absent → `None`). -/
inductive TokenBody where
  | falsy (text : String)
  | envelope (token : Option String)
  deriving Repr, DecidableEq

/-- The transport outcome of the `POST {base}/authenticate` call: an HTTP
success with a parsed body, or an error status on which
`response.raise_for_status()` raises `httpx.HTTPStatusError`. -/
inductive HttpOutcome where
  | success (body : TokenBody)
  | statusError (status : Nat)
  deriving Repr, DecidableEq

/-- What one `get_token` attempt produces: the token value, the raw body text
fallback, one of the classified exceptions, or the re-raised
`httpx.HTTPStatusError`. -/
inductive TokenResult where
  | token (value : Option String)
  | raw (text : String)
  | badRequest
  | notFound
  | statusError (status : Nat)
  deriving Repr, DecidableEq

/-- `get_token` body (lines 108–124): on success return the envelope's token
(or the raw text when the parsed body is falsy); on `httpx.HTTPStatusError`
classify 400 → `StevensConnectBadRequestException`,
404 → `StevensConnectNotFoundException`, anything else re-raised as is. -/
def get_token : HttpOutcome → TokenResult
  | .success (.envelope token) => .token token
  | .success (.falsy text) => .raw text
  | .statusError status =>
    if status = 400 then .badRequest
    else if status = 404 then .notFound
    else .statusError status

/-- `@stamina.retry(on=httpx.HTTPError, ...)` around `get_token`: the wrapper
retries exactly the outcomes escaping as `httpx.HTTPError` — the re-raised
`HTTPStatusError` is one; the `StevensConnect*` exceptions are plain
`Exception` subclasses and pass through unretried. -/
def get_token_retried : TokenResult → Bool
  | .statusError _ => true
  | _ => false

/-! ## `get_sensor_readings` (`client.py`, lines 155–211) -/

/-- The parsed JSON body of an HTTP-success readings page: falsy/empty (the
source then returns `response.text`) or the parsed
`ChannelReadingsResponse` from the `data` field. -/
inductive PageBody where
  | falsy (text : String)
  | data (response : ChannelReadingsResponse)
  deriving Repr, DecidableEq

/-- Outcome of the pagination loop: the accumulated per-channel reading lists
together with the number of pages fetched, or the raw text of a falsy page. -/
inductive PagesOutcome where
  | complete (total_readings : List (List ChannelReading)) (pages_fetched : Nat)
  | rawText (text : String)
  deriving Repr, DecidableEq

/-- The `while has_data:` loop (lines 175–202). `pages n` is the upstream
response for page number `n`. Each iteration appends
`readings.readings.values()` to the accumulator and continues while
`readings.paging["last_page"] > current_page`. The source imposes no page
bound, so the loop need not terminate against an adversarial upstream;
`fuel` bounds the recursion and `none` reports exhaustion (an execution the
Python loop would continue past). `pages_fetched` instruments the model with
the number of completed iterations. -/
def fetch_pages (pages : Nat → PageBody) :
    Nat → Nat → List (List ChannelReading) → Nat → Option PagesOutcome
  | 0, _, _, _ => none
  | fuel + 1, current_page, total_readings, fetched =>
    match pages current_page with
    | .falsy text => some (.rawText text)
    | .data response =>
      let total_readings := total_readings ++ response.readings.map Prod.snd
      if response.last_page > (current_page : Int) then
        fetch_pages pages fuel (current_page + 1) total_readings (fetched + 1)
      else
        some (.complete total_readings (fetched + 1))

/-- `grouped_readings[reading.timestamp].append(reading)` on a
`defaultdict(list)` (insertion-ordered). -/
def add_to_group (m : List (Int × List ChannelReading)) (r : ChannelReading) :
    List (Int × List ChannelReading) :=
  match m with
  | [] => [(r.timestamp, [r])]
  | (t, rs) :: rest =>
    if t == r.timestamp then (t, rs ++ [r]) :: rest
    else (t, rs) :: add_to_group rest r

/-- Lines 204–209: walk the accumulated per-channel lists and group readings
by exact timestamp. -/
def group_readings (total_readings : List (List ChannelReading)) :
    List (Int × List ChannelReading) :=
  total_readings.foldl
    (fun m channel_readings => channel_readings.foldl add_to_group m) []

/-- The value `get_sensor_readings` returns: the grouped mapping, or the raw
body text of a falsy page. -/
inductive ReadingsResult where
  | grouped (m : List (Int × List ChannelReading))
  | text (s : String)
  deriving Repr, DecidableEq

/-- `get_sensor_readings` (lines 155–211), given the upstream pages. -/
def get_sensor_readings (pages : Nat → PageBody) (fuel : Nat) :
    Option ReadingsResult :=
  match fetch_pages pages fuel 1 [] 0 with
  | none => none
  | some (.rawText text) => some (.text text)
  | some (.complete total_readings _) =>
    some (.grouped (group_readings total_readings))

/-- The per-channel reading lists of pages `p, p+1, …, p+n-1` in fetch order
(what the loop's accumulator holds after those pages). -/
def pages_acc (resp : Nat → ChannelReadingsResponse) : Nat → Nat →
    List (List ChannelReading)
  | _, 0 => []
  | p, n + 1 => (resp p).readings.map Prod.snd ++ pages_acc resp (p + 1) n

/-- Total number of readings in a grouped mapping. -/
def count_grouped (m : List (Int × List ChannelReading)) : Nat :=
  (m.map (fun g => g.2.length)).sum

/-! ## `transform` (`handlers.py`, lines 29–56) -/

/-- Python dict assignment `m[k] = v` on an insertion-ordered dict: an
existing key keeps its position, a new key is appended. -/
def py_dict_set (m : List (String × String)) (k v : String) :
    List (String × String) :=
  match m with
  | [] => [(k, v)]
  | (k', v') :: rest =>
    if k' == k then (k', v) :: rest else (k', v') :: py_dict_set rest k v

/-- `m.update(entries)`: assign each entry in order. -/
def py_dict_update (m entries : List (String × String)) :
    List (String × String) :=
  entries.foldl (fun m kv => py_dict_set m kv.1 kv.2) m

/-- `next((channel for channel in sensor['channels']
if channel['id'] == reading.channel_id), None)`. -/
def find_channel (channels : List Channel) (channel_id : String) :
    Option Channel :=
  channels.find? (fun c => c.id == channel_id)

/-- `next((unit['unit'] for unit in station_sensor.units
if str(unit['id']) == channel_info['unit_id']), '')`. -/
def find_unit_symbol (units : List Unit) (unit_id : String) : String :=
  ((units.find? (fun u => toString u.id == unit_id)).map
    (fun u => u.unit)).getD ""

/-- Rendering of `f"{channel_info['channel_health'].get('health')}%"`: an
absent key interpolates as `"None"`. -/
def health_text (health : Option String) : String := health.getD "None" ++ "%"

/-- The `reading_additional` dict literal for one reading (lines 38–41): the
channel's display name mapped to "value unit-symbol", and the name suffixed
with `" Health"` mapped to the health percentage. -/
def reading_additional
    (station_sensor : PullSensorObservationsPerStationConfig) (c : Channel)
    (r : ChannelReading) : List (String × String) :=
  [(c.name, toString r.reading ++ " " ++
      find_unit_symbol station_sensor.units c.unit_id),
   (c.name ++ " Health", health_text c.channel_health.health)]

/-- The `for reading in readings:` loop (lines 33–43) building
`readings_additional`. When `find_channel` yields nothing, the source binds
`channel_info = None` and then evaluates `channel_info['name']`, raising
`TypeError`: the model fails with `none`. -/
def readings_additional
    (station_sensor : PullSensorObservationsPerStationConfig) :
    List ChannelReading → List (String × String) →
    Option (List (String × String))
  | [], m => some m
  | r :: rs, m =>
    match find_channel station_sensor.sensor.channels r.channel_id with
    | none => none
    | some c =>
      readings_additional station_sensor rs
        (py_dict_update m (reading_additional station_sensor c r))

/-- The record literal `transform` returns (lines 45–56), with the fixed
`type`/`subtype` strings and the `additional` dict. -/
structure Observation where
  source_name : String
  source : String
  type : String
  subtype : String
  recorded_at : Int
  location_lat : Rat
  location_lon : Rat
  additional : List (String × String)
  deriving Repr, DecidableEq

/-- The observation record built at lines 45–56, given the finished
`readings_additional` dict. -/
def transform_record (station_sensor : PullSensorObservationsPerStationConfig)
    (timestamp : Int) (adds : List (String × String)) : Observation :=
  { source_name := station_sensor.station.station_name ++ " - Sensor '" ++
      station_sensor.sensor.name ++ "'",
    source := station_sensor.sensor.id,
    type := "stationary-object",
    subtype := "weather_station",
    recorded_at := timestamp,
    location_lat := station_sensor.station.station_latitude,
    location_lon := station_sensor.station.station_longitude,
    additional := adds }

/-- `transform(station_sensor, timestamp, readings)` (lines 29–56). -/
def transform (station_sensor : PullSensorObservationsPerStationConfig)
    (timestamp : Int) (readings : List ChannelReading) : Option Observation :=
  match readings_additional station_sensor readings [] with
  | none => none
  | some adds => some (transform_record station_sensor timestamp adds)

/-- Spec-side definition (the claim's words, for comparison with the code):
remove the literal `" (UTC)"` only when it occurs as a suffix. -/
def remove_utc_suffix_spec (s : String) : String :=
  if s.data.reverse.take 6 = [')', 'C', 'T', 'U', '(', ' '] then
    String.mk (s.data.take (s.data.length - 6))
  else s

/-- The watermark writes of a trace, in order. -/
def writes_of (events : List Event) : List (String × String) :=
  events.filterMap (fun e =>
    match e with
    | Event.write source_id v => some (source_id, v)
    | _ => none)

/-- Whether an event was performed on behalf of the given sensor: a watermark
lookup or write keyed by its id, or a dispatch carrying it as snapshot. -/
def event_for_sensor (sn : Sensor) : Event → Bool
  | Event.read source_id => source_id == sn.id
  | Event.dispatch config => config.sensor == sn
  | Event.write source_id _ => source_id == sn.id

/-! ### Concrete fixtures used by witnesses and counterexamples -/

def sample_channel : Channel :=
  { id := "ch1", name := "Temperature", unit_id := "1",
    channel_health := { health := some "100",
                        last_reading := "2024-01-01 00:00:00 (UTC)" } }

def sample_sensor : Sensor :=
  { id := "sensor1", name := "Sensor One", channels := [sample_channel] }

def sample_station : Station :=
  { name := "Station One", latitude := 1, longitude := 2,
    sensors := [sample_sensor] }

def sample_project : Project :=
  { id := "project1", name := "Project One", stations := [sample_station] }

def sample_catalog : ProjectResponse :=
  { projects := [sample_project], units := [] }

def sample_dp : String → PyDateTime := fun _ => { wall := 0, tz := none }

def sample_clock : Nat → Int := fun _ => 0

/-- The `station_info` snapshot the handler builds from `sample_station`. -/
def sample_station_info : StationInfo :=
  { station_name := "Station One", station_longitude := 2,
    station_latitude := 1 }

/-- The run state entering the first sensor iteration of a fresh run. -/
def initial_run_state : RunState :=
  { store := [], clock_idx := 1, events := [], sensors_triggered := 0,
    error := false }

/-- A catalog whose sensor's `last_reading` contains `" (UTC)"` in the middle
of the string rather than as a suffix. -/
def mid_utc_channel : Channel :=
  { id := "ch2", name := "Humidity", unit_id := "1",
    channel_health := { health := some "90",
                        last_reading := "2024-01-01 (UTC) 00:00" } }

def mid_utc_sensor : Sensor :=
  { id := "sensor2", name := "Sensor Two", channels := [mid_utc_channel] }

def mid_utc_station : Station :=
  { name := "Station Two", latitude := 0, longitude := 0,
    sensors := [mid_utc_sensor] }

def mid_utc_project : Project :=
  { id := "project2", name := "Project Two", stations := [mid_utc_station] }

def mid_utc_catalog : ProjectResponse :=
  { projects := [mid_utc_project], units := [] }

def sample_reading_a : ChannelReading :=
  { channel_id := "ch1", reading := 10, timestamp := 1704067200 }

def sample_reading_b : ChannelReading :=
  { channel_id := "ch1", reading := 11, timestamp := 1704067200 }

/-- A two-page upstream: page 1 announces `last_page = 2`, page 2 is the
last. -/
def two_page_resp : Nat → ChannelReadingsResponse := fun n =>
  if n = 1 then
    { readings := [("ch1", [sample_reading_a])], last_page := 2 }
  else
    { readings := [("ch1", [sample_reading_b])], last_page := 2 }

def two_page_pages : Nat → PageBody := fun n =>
  PageBody.data (two_page_resp n)

/-- An upstream whose second page has a falsy body. -/
def falsy_second_pages : Nat → PageBody := fun n =>
  if n = 1 then two_page_pages 1 else PageBody.falsy "raw body"

/-- The display names of the channels the readings resolve to, in reading
order (unmatched readings contribute nothing — under the totality
precondition every reading contributes). -/
def matched_channel_names (ss : PullSensorObservationsPerStationConfig)
    (readings : List ChannelReading) : List String :=
  readings.filterMap
    (fun r => (find_channel ss.sensor.channels r.channel_id).map Channel.name)

/-- The set of keys `transform` writes into the `additional` dict: for each
distinct resolved channel name, the name itself and the name followed by
`" Health"`. -/
def additional_keys (ss : PullSensorObservationsPerStationConfig)
    (readings : List ChannelReading) : Finset String :=
  (matched_channel_names ss readings).toFinset.biUnion
    (fun n => {n, n ++ " Health"})

/-- A snapshot whose sensor has two channels with colliding display names:
`"X"` and `"X Health"`. -/
def collide_channel_x : Channel :=
  { id := "c1", name := "X", unit_id := "1",
    channel_health := { health := some "50", last_reading := "r" } }

def collide_channel_xh : Channel :=
  { id := "c2", name := "X Health", unit_id := "1",
    channel_health := { health := some "60", last_reading := "r" } }

def collide_sensor : Sensor :=
  { id := "s", name := "S", channels := [collide_channel_x, collide_channel_xh] }

def collide_config : PullSensorObservationsPerStationConfig :=
  { start := 0, stop := 0, project_id := "project1",
    station := sample_station_info, sensor := collide_sensor, units := [] }

def collide_readings : List ChannelReading :=
  [{ channel_id := "c1", reading := 1, timestamp := 0 },
   { channel_id := "c2", reading := 2, timestamp := 0 }]

/-- A collision-free snapshot for the transform witness. -/
def transform_config : PullSensorObservationsPerStationConfig :=
  { start := 0, stop := 0, project_id := "project1",
    station := sample_station_info, sensor := sample_sensor, units := [] }

/-! ## Theorems -/

/-- Extra fuel beyond what the span requires is irrelevant: once the fuel
dominates the number of remaining iterations, the result is stable. -/
theorem generate_date_pairs_go_fuel_stable (lower : Int) (interval : Nat)
    (hi : 1 ≤ interval) :
    ∀ (f₁ : Nat), ∀ (f₂ : Nat), ∀ (upper : Int),
      upper - lower ≤ (f₁ : Int) * ((interval : Int) * 86400) →
      upper - lower ≤ (f₂ : Int) * ((interval : Int) * 86400) →
      generate_date_pairs_go lower interval f₁ upper =
        generate_date_pairs_go lower interval f₂ upper := by
  have hstep : (86400 : Int) ≤ (interval : Int) * 86400 := by
    have h1 : (1 : Int) ≤ (interval : Int) := by exact_mod_cast hi
    nlinarith
  intro f₁
  induction f₁ with
  | zero =>
    intro f₂ upper h₁ h₂
    have hnot : ¬ lower < upper := by
      simp only [Nat.cast_zero, zero_mul] at h₁
      omega
    cases f₂ with
    | zero => rfl
    | succ f₂ => simp [generate_date_pairs_go, hnot]
  | succ f₁ ih =>
    intro f₂ upper h₁ h₂
    by_cases hlt : lower < upper
    · cases f₂ with
      | zero =>
        exfalso
        simp only [Nat.cast_zero, zero_mul] at h₂
        omega
      | succ f₂ =>
        simp only [generate_date_pairs_go, hlt, if_true]
        have h₁' : upper - (interval : Int) * 86400 - lower ≤
            (f₁ : Int) * ((interval : Int) * 86400) := by
          have : ((f₁ : Int) + 1) * ((interval : Int) * 86400) =
              (f₁ : Int) * ((interval : Int) * 86400) +
                (interval : Int) * 86400 := by ring
          push_cast at h₁
          linarith [h₁, this]
        have h₂' : upper - (interval : Int) * 86400 - lower ≤
            (f₂ : Int) * ((interval : Int) * 86400) := by
          have : ((f₂ : Int) + 1) * ((interval : Int) * 86400) =
              (f₂ : Int) * ((interval : Int) * 86400) +
                (interval : Int) * 86400 := by ring
          push_cast at h₂
          linarith [h₂, this]
        exact congrArg _ (ih f₂ (upper - (interval : Int) * 86400) h₁' h₂')
    · cases f₂ with
      | zero => simp [generate_date_pairs_go, hlt]
      | succ f₂ => simp [generate_date_pairs_go, hlt]

theorem generate_date_pairs_go_nil (lower upper : Int) (interval : Nat)
    (h : ¬ lower < upper) :
    ∀ fuel, generate_date_pairs_go lower interval fuel upper = [] := by
  intro fuel
  cases fuel with
  | zero => rfl
  | succ fuel => simp [generate_date_pairs_go, h]

/-- Every yielded window lies inside the requested range, is nonempty, and
spans at most `interval` days. -/
theorem generate_date_pairs_go_mem (lower : Int) (interval : Nat)
    (hi : 1 ≤ interval) :
    ∀ (fuel : Nat) (upper : Int),
      ∀ p ∈ generate_date_pairs_go lower interval fuel upper,
        lower ≤ p.1 ∧ p.1 < p.2 ∧ p.2 - p.1 ≤ (interval : Int) * 86400 ∧
          p.2 ≤ upper := by
  have hstep : (86400 : Int) ≤ (interval : Int) * 86400 := by
    have h1 : (1 : Int) ≤ (interval : Int) := by exact_mod_cast hi
    nlinarith
  intro fuel
  induction fuel with
  | zero => intro upper p hp; simp [generate_date_pairs_go] at hp
  | succ fuel ih =>
    intro upper p hp
    by_cases hlt : lower < upper
    · simp only [generate_date_pairs_go, hlt, if_true, List.mem_cons] at hp
      rcases hp with rfl | hp
      · refine ⟨le_max_left _ _, ?_, ?_, le_refl _⟩
        · simp only [max_lt_iff]
          exact ⟨hlt, by omega⟩
        · have hmax : upper - (interval : Int) * 86400 ≤
              max lower (upper - (interval : Int) * 86400) := le_max_right _ _
          omega
      · obtain ⟨h₁, h₂, h₃, h₄⟩ := ih _ p hp
        exact ⟨h₁, h₂, h₃, by omega⟩
    · rw [generate_date_pairs_go_nil _ _ _ hlt] at hp
      simp at hp

/-- Consecutive windows abut: the next (older) window's upper bound equals the
current window's lower bound — no gaps and no overlaps. -/
theorem generate_date_pairs_go_chain (lower : Int) (interval : Nat) :
    ∀ (fuel : Nat) (upper : Int),
      (generate_date_pairs_go lower interval fuel upper).Chain'
        (fun p q => q.2 = p.1) := by
  intro fuel
  induction fuel with
  | zero => intro upper; simp [generate_date_pairs_go]
  | succ fuel ih =>
    intro upper
    by_cases hlt : lower < upper
    · simp only [generate_date_pairs_go, hlt, if_true]
      refine List.chain'_cons'.mpr ⟨?_, ih _⟩
      intro q hq
      cases fuel with
      | zero => simp [generate_date_pairs_go] at hq
      | succ fuel =>
        by_cases hlt' : lower < upper - (interval : Int) * 86400
        · simp only [generate_date_pairs_go, hlt', if_true, List.head?_cons,
            Option.mem_def, Option.some.injEq] at hq
          subst hq
          simp only []
          omega
        · rw [generate_date_pairs_go_nil _ _ _ hlt'] at hq
          simp at hq
    · rw [generate_date_pairs_go_nil _ _ _ hlt]
      simp

/-- With a nonempty range, the first yielded window ends at `upper`:
the most recent window comes first. -/
theorem generate_date_pairs_go_head (lower upper : Int) (interval fuel : Nat)
    (hlt : lower < upper) (hf : 0 < fuel) :
    (generate_date_pairs_go lower interval fuel upper).head?.map Prod.snd =
      some upper := by
  cases fuel with
  | zero => omega
  | succ fuel => simp [generate_date_pairs_go, hlt]

/-- With sufficient fuel and a nonempty range, the last yielded window starts
at `lower`: coverage reaches back to the start of the range. -/
theorem generate_date_pairs_go_last (lower : Int) (interval : Nat)
    (hi : 1 ≤ interval) :
    ∀ (fuel : Nat) (upper : Int),
      upper - lower ≤ (fuel : Int) * ((interval : Int) * 86400) →
      lower < upper →
      ((generate_date_pairs_go lower interval fuel upper).getLast?.map
        Prod.fst) = some lower := by
  have hstep : (86400 : Int) ≤ (interval : Int) * 86400 := by
    have h1 : (1 : Int) ≤ (interval : Int) := by exact_mod_cast hi
    nlinarith
  intro fuel
  induction fuel with
  | zero =>
    intro upper hspan hlt
    exfalso
    simp only [Nat.cast_zero, zero_mul] at hspan
    omega
  | succ fuel ih =>
    intro upper hspan hlt
    simp only [generate_date_pairs_go, hlt, if_true]
    by_cases hlt' : lower < upper - (interval : Int) * 86400
    · have hspan' : upper - (interval : Int) * 86400 - lower ≤
          (fuel : Int) * ((interval : Int) * 86400) := by
        have hexp : ((fuel : Int) + 1) * ((interval : Int) * 86400) =
            (fuel : Int) * ((interval : Int) * 86400) +
              (interval : Int) * 86400 := by ring
        push_cast at hspan
        linarith [hspan, hexp]
      have htail := ih (upper - (interval : Int) * 86400) hspan' hlt'
      rcases hgo : generate_date_pairs_go lower interval fuel
          (upper - (interval : Int) * 86400) with _ | ⟨t, ts⟩
      · rw [hgo] at htail
        simp at htail
      · rw [hgo] at htail
        rw [List.getLast?_cons_cons]
        exact htail
    · rw [generate_date_pairs_go_nil _ _ _ hlt']
      simp only [List.getLast?_singleton, Option.map_some]
      have hmax : max lower (upper - (interval : Int) * 86400) = lower := by
        omega
      rw [hmax]
      rfl


/-- The wrapper's fuel `(upper - lower).toNat / (interval * 86400) + 1`
dominates the span, so (for `interval ≥ 1`) the loop always terminates by its
own condition, never by fuel exhaustion. -/
theorem generate_date_pairs_fuel_sufficient (lower upper : Int) (interval : Nat)
    (hi : 1 ≤ interval) :
    upper - lower ≤
      (((upper - lower).toNat / (interval * 86400) + 1 : Nat) : Int) *
        ((interval : Int) * 86400) := by
  have hn : 0 < interval * 86400 := by positivity
  have hkey : (upper - lower).toNat <
      ((upper - lower).toNat / (interval * 86400) + 1) * (interval * 86400) :=
    calc (upper - lower).toNat
        = interval * 86400 * ((upper - lower).toNat / (interval * 86400)) +
            (upper - lower).toNat % (interval * 86400) :=
          (Nat.div_add_mod _ _).symm
      _ < interval * 86400 * ((upper - lower).toNat / (interval * 86400)) +
            interval * 86400 :=
          Nat.add_lt_add_left (Nat.mod_lt _ hn) _
      _ = ((upper - lower).toNat / (interval * 86400) + 1) *
            (interval * 86400) := by ring
  have hkey' : (((upper - lower).toNat : Int)) <
      (((upper - lower).toNat / (interval * 86400) + 1 : Nat) : Int) *
        ((interval : Int) * 86400) := by
    push_cast at hkey ⊢
    linarith [hkey]
  rcases le_or_lt (upper - lower) 0 with h | h
  · have h0 : (0 : Int) ≤ ((upper - lower).toNat : Int) := Int.ofNat_nonneg _
    linarith [hkey', h0, h]
  · have htn : ((upper - lower).toNat : Int) = upper - lower :=
      Int.toNat_of_nonneg (le_of_lt h)
    linarith [hkey', htn.ge, htn.le]

theorem generate_date_pairs_eq_go (lower upper : Int) (interval : Nat)
    (hi : 1 ≤ interval) (fuel : Nat)
    (hf : upper - lower ≤ (fuel : Int) * ((interval : Int) * 86400)) :
    generate_date_pairs lower upper interval =
      generate_date_pairs_go lower interval fuel upper := by
  unfold generate_date_pairs
  exact generate_date_pairs_go_fuel_stable lower interval hi _ fuel upper
    (generate_date_pairs_fuel_sufficient lower upper interval hi) hf

theorem generate_date_pairs_go_cons (lower upper : Int) (interval fuel : Nat)
    (h : lower < upper) :
    generate_date_pairs_go lower interval (fuel + 1) upper =
      (max lower (upper - (interval : Int) * 86400), upper) ::
        generate_date_pairs_go lower interval fuel
          (upper - (interval : Int) * 86400) := by
  simp [generate_date_pairs_go, h]

/-- When the span is in `(6 days, 8 days]`, the default 2-day chunking yields
exactly the four windows walking backward from `upper`. -/
theorem generate_date_pairs_four (lower upper : Int)
    (h1 : 3 * 172800 < upper - lower) (h2 : upper - lower ≤ 4 * 172800) :
    generate_date_pairs lower upper =
      [(upper - 172800, upper), (upper - 345600, upper - 172800),
        (upper - 518400, upper - 345600), (lower, upper - 518400)] := by
  have hcast : ((MAX_DAYS_PER_QUERY : Nat) : Int) * 86400 = 172800 := by
    norm_num [MAX_DAYS_PER_QUERY]
  rw [generate_date_pairs_eq_go lower upper MAX_DAYS_PER_QUERY
    (by norm_num [MAX_DAYS_PER_QUERY]) 4 (by rw [hcast]; omega)]
  rw [show (4 : Nat) = 3 + 1 from rfl,
    generate_date_pairs_go_cons lower upper _ 3 (by omega), hcast]
  rw [max_eq_right (by omega : lower ≤ upper - 172800)]
  rw [show (3 : Nat) = 2 + 1 from rfl,
    generate_date_pairs_go_cons lower _ _ 2 (by omega), hcast]
  rw [max_eq_right (by omega : lower ≤ upper - 172800 - 172800)]
  rw [show (2 : Nat) = 1 + 1 from rfl,
    generate_date_pairs_go_cons lower _ _ 1 (by omega), hcast]
  rw [max_eq_right (by omega : lower ≤ upper - 172800 - 172800 - 172800)]
  rw [show (1 : Nat) = 0 + 1 from rfl,
    generate_date_pairs_go_cons lower _ _ 0 (by omega), hcast]
  rw [max_eq_left
    (by omega : upper - 172800 - 172800 - 172800 - 172800 ≤ lower)]
  rw [generate_date_pairs_go_nil _ _ _ (by omega)]
  simp only [List.cons.injEq, Prod.mk.injEq, and_true, true_and]
  refine ⟨by omega, ⟨by omega, by omega⟩, by omega⟩


/-- Lifting `generate_date_pairs_go_mem` to the wrapper at the default 2-day
interval. -/
theorem generate_date_pairs_mem (lower upper : Int) :
    ∀ p ∈ generate_date_pairs lower upper,
      lower ≤ p.1 ∧ p.1 < p.2 ∧ p.2 - p.1 ≤ 2 * 86400 ∧ p.2 ≤ upper := by
  intro p hp
  have hcast : ((MAX_DAYS_PER_QUERY : Nat) : Int) * 86400 = 2 * 86400 := by
    norm_num [MAX_DAYS_PER_QUERY]
  have := generate_date_pairs_go_mem lower MAX_DAYS_PER_QUERY
    (by norm_num [MAX_DAYS_PER_QUERY]) _ upper p hp
  rw [hcast] at this
  exact this

/-- C3: `generate_date_pairs` partitions `[start, stop)` into consecutive
windows of at most 2 days, walking backward from `stop`: every window is a
nonempty sub-window of the range spanning at most 2 days, the first window
ends at `stop`, the last starts at `start`, and adjacent windows abut exactly
(no gaps, no overlaps); on start = 2024-01-01T00:00Z,
stop = 2024-01-05T00:00Z it yields exactly [2024-01-03, 2024-01-05) then
[2024-01-01, 2024-01-03). -/
theorem claim_C3_generate_date_pairs_partition (lower upper : Int)
    (h : lower < upper) :
    (∀ p ∈ generate_date_pairs lower upper,
        lower ≤ p.1 ∧ p.1 < p.2 ∧ p.2 - p.1 ≤ 2 * 86400 ∧ p.2 ≤ upper) ∧
    (generate_date_pairs lower upper).Chain' (fun p q => q.2 = p.1) ∧
    (generate_date_pairs lower upper).head?.map Prod.snd = some upper ∧
    (generate_date_pairs lower upper).getLast?.map Prod.fst = some lower ∧
    generate_date_pairs 1704067200 1704412800 =
      [(1704240000, 1704412800), (1704067200, 1704240000)] := by
  refine ⟨generate_date_pairs_mem lower upper, ?_, ?_, ?_, by decide⟩
  · exact generate_date_pairs_go_chain lower MAX_DAYS_PER_QUERY _ upper
  · exact generate_date_pairs_go_head lower upper MAX_DAYS_PER_QUERY _ h
      (Nat.succ_pos _)
  · exact generate_date_pairs_go_last lower MAX_DAYS_PER_QUERY
      (by norm_num [MAX_DAYS_PER_QUERY]) _ upper
      (generate_date_pairs_fuel_sufficient lower upper MAX_DAYS_PER_QUERY
        (by norm_num [MAX_DAYS_PER_QUERY])) h

theorem claim_C3_generate_date_pairs_partition_witness :
    (0 : Int) < 259200 ∧
      (generate_date_pairs 0 259200).getLast?.map Prod.fst = some 0 :=
  ⟨by decide,
    (claim_C3_generate_date_pairs_partition 0 259200 (by decide)).2.2.2.1⟩

/-- C6: `get_token` raises `StevensConnectBadRequestException` exactly on
HTTP status 400 and `StevensConnectNotFoundException` exactly on 404; those
two results are outside the `stamina.retry(on=httpx.HTTPError)` scope, while
every other HTTP error status propagates as the re-raised
`httpx.HTTPStatusError`, which the wrapper retries. -/
theorem claim_C6_get_token_error_classification :
    (∀ r : HttpOutcome,
        get_token r = TokenResult.badRequest ↔ r = HttpOutcome.statusError 400) ∧
    (∀ r : HttpOutcome,
        get_token r = TokenResult.notFound ↔ r = HttpOutcome.statusError 404) ∧
    (∀ status : Nat, status ≠ 400 → status ≠ 404 →
        get_token (HttpOutcome.statusError status) =
          TokenResult.statusError status) ∧
    get_token_retried TokenResult.badRequest = false ∧
    get_token_retried TokenResult.notFound = false ∧
    (∀ status : Nat,
        get_token_retried (TokenResult.statusError status) = true) := by
  refine ⟨?_, ?_, ?_, rfl, rfl, fun _ => rfl⟩
  · intro r
    constructor
    · intro hr
      match r with
      | .success (.falsy _) => simp [get_token] at hr
      | .success (.envelope _) => simp [get_token] at hr
      | .statusError status =>
        by_cases h4 : status = 400
        · rw [h4]
        · by_cases h44 : status = 404 <;> simp [get_token, h4, h44] at hr
    · intro hr
      rw [hr]
      rfl
  · intro r
    constructor
    · intro hr
      match r with
      | .success (.falsy _) => simp [get_token] at hr
      | .success (.envelope _) => simp [get_token] at hr
      | .statusError status =>
        by_cases h4 : status = 400
        · simp [get_token, h4] at hr
        · by_cases h44 : status = 404
          · rw [h44]
          · simp [get_token, h4, h44] at hr
    · intro hr
      rw [hr]
      rfl
  · intro status h4 h44
    simp [get_token, h4, h44]

theorem claim_C6_get_token_error_classification_witness :
    get_token (HttpOutcome.statusError 400) = TokenResult.badRequest ∧
    get_token (HttpOutcome.statusError 404) = TokenResult.notFound ∧
    get_token (HttpOutcome.statusError 500) = TokenResult.statusError 500 :=
  ⟨(claim_C6_get_token_error_classification.1 (HttpOutcome.statusError 400)).mpr
      rfl,
   (claim_C6_get_token_error_classification.2.1
      (HttpOutcome.statusError 404)).mpr rfl,
   claim_C6_get_token_error_classification.2.2.1 500 (by decide) (by decide)⟩

/-- C7: on an HTTP-success response, `get_token` returns the `token` field of
the `{data: {token}}` envelope when the parsed body is truthy, and the raw
response body text when the parsed body is empty/falsy. -/
theorem claim_C7_get_token_success_paths :
    (∀ token : Option String,
        get_token (HttpOutcome.success (TokenBody.envelope token)) =
          TokenResult.token token) ∧
    (∀ text : String,
        get_token (HttpOutcome.success (TokenBody.falsy text)) =
          TokenResult.raw text) :=
  ⟨fun _ => rfl, fun _ => rfl⟩

/-- C1: for a catalog of exactly one project with one station with one
non-excluded sensor, with no stored watermark for that sensor and the default
7-day lookback, one `action_pull_observations` invocation emits exactly one
watermark lookup, then exactly 4 sub-task dispatches (one per 2-day window,
ceil(7/2) = 4), then exactly one watermark write for that sensor — the write
after all dispatches — and returns `sensors_triggered = 4`. The clock
hypothesis says the run's second `datetime.now` reading is within one day of
the first. -/
theorem claim_C1_single_sensor_seven_day_run
    (dp : String → PyDateTime) (clock : Nat → Int)
    (action_config : PullObservationsConfig) (store : StateStore)
    (project : Project) (station : Station) (sensor : Sensor)
    (units : List Unit)
    (hstations : project.stations = [station])
    (hsensors : station.sensors = [sensor])
    (hname : sensor_excluded sensor = false)
    (hchannels : sensor.channels ≠ [])
    (hwatermark : get_state store sensor.id = none)
    (hlookback : action_config.default_lookback_days = 7)
    (hclock₁ : clock 0 ≤ clock 1) (hclock₂ : clock 1 ≤ clock 0 + 86400) :
    ∃ c₁ c₂ c₃ c₄ w,
      (action_pull_observations dp clock action_config store
          (some { projects := [project], units := units })).events =
        [Event.read sensor.id, Event.dispatch c₁, Event.dispatch c₂,
          Event.dispatch c₃, Event.dispatch c₄, Event.write sensor.id w] ∧
      (action_pull_observations dp clock action_config store
          (some { projects := [project], units := units })).sensors_triggered
        = 4 := by
  obtain ⟨ch, chs, hch⟩ : ∃ ch chs, sensor.channels = ch :: chs := by
    cases hc : sensor.channels with
    | nil => exact absurd hc hchannels
    | cons ch chs => exact ⟨ch, chs, rfl⟩
  have hpairs := generate_date_pairs_four (clock 0 - 7 * 86400) (clock 1)
    (by omega) (by omega)
  norm_num at hpairs
  refine ⟨⟨clock 1 - 172800, clock 1, project.id,
      ⟨station.name, station.longitude, station.latitude⟩, sensor, units⟩,
    ⟨clock 1 - 345600, clock 1 - 172800, project.id,
      ⟨station.name, station.longitude, station.latitude⟩, sensor, units⟩,
    ⟨clock 1 - 518400, clock 1 - 345600, project.id,
      ⟨station.name, station.longitude, station.latitude⟩, sensor, units⟩,
    ⟨clock 0 - 7 * 86400, clock 1 - 518400, project.id,
      ⟨station.name, station.longitude, station.latitude⟩, sensor, units⟩,
    py_replace_utc ch.channel_health.last_reading, ?_, ?_⟩ <;>
  simp [action_pull_observations, process_project, process_station,
    process_sensor, sensor_start_date, hstations, hsensors, hname,
    hwatermark, hlookback, hch, hpairs]

theorem claim_C1_single_sensor_seven_day_run_witness :
    sensor_excluded sample_sensor = false ∧
    ∃ c₁ c₂ c₃ c₄ w,
      (action_pull_observations sample_dp sample_clock {} []
          (some sample_catalog)).events =
        [Event.read sample_sensor.id, Event.dispatch c₁, Event.dispatch c₂,
          Event.dispatch c₃, Event.dispatch c₄,
          Event.write sample_sensor.id w] ∧
      (action_pull_observations sample_dp sample_clock {} []
          (some sample_catalog)).sensors_triggered = 4 :=
  ⟨rfl,
    claim_C1_single_sensor_seven_day_run sample_dp sample_clock {} []
      sample_project sample_station sample_sensor [] rfl rfl rfl
      (by decide) rfl rfl (by decide) (by decide)⟩

/-- C4: for every sensor processed by `action_pull_observations` (under a
validated configuration): with no stored watermark for the sensor's id the
window start is `now` minus the configured lookback in days (a value the
pydantic bounds confine to [1, 15], with field default 7); with a stored
watermark the start is exactly the parsed `updated_at` after `tzinfo` is
replaced by UTC — its wall clock read as a UTC instant — and whenever the
parse yields a naive or already-UTC datetime (as the integration's own
`"... (UTC)"`-derived watermarks do) that normalization leaves the denoted
instant unchanged. -/
theorem claim_C4_window_start (dp : String → PyDateTime) (now : Int)
    (action_config : PullObservationsConfig) (store : StateStore)
    (sensor : Sensor) (hvalid : action_config.Valid) :
    (get_state store sensor.id = none →
      sensor_start_date dp now action_config store sensor =
        now - action_config.default_lookback_days * 86400 ∧
      1 ≤ action_config.default_lookback_days ∧
      action_config.default_lookback_days ≤ 15) ∧
    (∀ updated_at, get_state store sensor.id = some updated_at →
      sensor_start_date dp now action_config store sensor =
        ((dp updated_at).replace_tzinfo_utc).instant ∧
      sensor_start_date dp now action_config store sensor =
        (dp updated_at).wall ∧
      ((dp updated_at).tz = none ∨ (dp updated_at).tz = some 0 →
        (dp updated_at).instant =
          sensor_start_date dp now action_config store sensor)) ∧
    ({} : PullObservationsConfig).default_lookback_days = 7 := by
  refine ⟨?_, ?_, rfl⟩
  · intro hnone
    exact ⟨by simp [sensor_start_date, hnone], hvalid.1, hvalid.2⟩
  · intro updated_at hsome
    have heq : sensor_start_date dp now action_config store sensor =
        (dp updated_at).wall := by
      simp [sensor_start_date, hsome, PyDateTime.replace_tzinfo_utc,
        PyDateTime.instant]
    refine ⟨?_, heq, ?_⟩
    · rw [heq]
      simp [PyDateTime.replace_tzinfo_utc, PyDateTime.instant]
    · intro htz
      rw [heq]
      rcases htz with h | h <;> simp [PyDateTime.instant, h]

theorem claim_C4_window_start_witness :
    PullObservationsConfig.Valid {} ∧
    sensor_start_date sample_dp 0 {} [] sample_sensor = 0 - 7 * 86400 :=
  ⟨by decide,
    ((claim_C4_window_start sample_dp 0 {} [] sample_sensor (by decide)).1
      rfl).1⟩

/-- C5 counterexample: the claim says the persisted watermark is
`last_reading` with the literal `" (UTC)"` *suffix* removed. On a catalog
whose `last_reading` is `"2024-01-01 (UTC) 00:00"` (the marker mid-string,
no such suffix), suffix removal keeps the string unchanged, but the run
persists `"2024-01-01 00:00"`: `str.replace` deletes every occurrence, not
just a suffix. -/
theorem claim_C5_watermark_counterexample :
    writes_of (action_pull_observations sample_dp sample_clock {} []
        (some mid_utc_catalog)).events =
      [("sensor2", "2024-01-01 00:00")] ∧
    remove_utc_suffix_spec "2024-01-01 (UTC) 00:00" =
      "2024-01-01 (UTC) 00:00" ∧
    ("2024-01-01 00:00" : String) ≠ "2024-01-01 (UTC) 00:00" := by
  refine ⟨by decide, by decide, by decide⟩

/-- C5 (amended): for every non-excluded sensor processed with a nonempty
channel list, the events contributed by its loop iteration are the watermark
lookup, then all window dispatches, then exactly one watermark write whose
value is the catalog snapshot's `channels[0].channel_health["last_reading"]`
with every occurrence of the literal `" (UTC)"` removed; the value is a
function of the catalog snapshot only (fetched readings do not even reach
this computation). -/
theorem claim_C5_watermark_from_catalog (dp : String → PyDateTime)
    (clock : Nat → Int) (now : Int)
    (action_config : PullObservationsConfig) (project_id : String)
    (station_info : StationInfo) (units : List Unit) (sensor : Sensor)
    (s : RunState) (herr : s.error = false) (ch : Channel)
    (chs : List Channel) (hch : sensor.channels = ch :: chs) :
    ∃ windows : List (Int × Int),
      (process_sensor dp clock now action_config project_id station_info
          units sensor s).events =
        s.events ++ [Event.read sensor.id] ++
          (windows.map (fun lu => Event.dispatch
            { start := lu.1, stop := lu.2, project_id := project_id,
              station := station_info, sensor := sensor, units := units })) ++
          [Event.write sensor.id
            (py_replace_utc ch.channel_health.last_reading)] ∧
      (process_sensor dp clock now action_config project_id station_info
          units sensor s).store =
        set_state s.store sensor.id
          (py_replace_utc ch.channel_health.last_reading) := by
  refine ⟨generate_date_pairs
    (sensor_start_date dp now action_config s.store sensor)
    (clock s.clock_idx), ?_, ?_⟩ <;>
  simp [process_sensor, herr, hch]

theorem claim_C5_watermark_from_catalog_witness :
    ∃ windows : List (Int × Int),
      (process_sensor sample_dp sample_clock 0 {} "project1"
          sample_station_info [] sample_sensor initial_run_state).events =
        initial_run_state.events ++ [Event.read sample_sensor.id] ++
          (windows.map (fun lu => Event.dispatch
            { start := lu.1, stop := lu.2, project_id := "project1",
              station := sample_station_info,
              sensor := sample_sensor, units := [] })) ++
          [Event.write sample_sensor.id
            (py_replace_utc sample_channel.channel_health.last_reading)] ∧
      (process_sensor sample_dp sample_clock 0 {} "project1"
          sample_station_info [] sample_sensor initial_run_state).store =
        set_state initial_run_state.store sample_sensor.id
          (py_replace_utc sample_channel.channel_health.last_reading) :=
  claim_C5_watermark_from_catalog sample_dp sample_clock 0 {} "project1"
    sample_station_info [] sample_sensor initial_run_state rfl
    sample_channel [] rfl

/-- Any event added by one sensor iteration is on behalf of that sensor. -/
theorem process_sensor_event_provenance (dp : String → PyDateTime)
    (clock : Nat → Int) (now : Int) (action_config : PullObservationsConfig)
    (project_id : String) (station_info : StationInfo) (units : List Unit)
    (sensor : Sensor) (s : RunState) (e : Event)
    (he : e ∈ (process_sensor dp clock now action_config project_id
        station_info units sensor s).events) :
    e ∈ s.events ∨ event_for_sensor sensor e = true := by
  by_cases herr : s.error
  · simp only [process_sensor, herr, if_true] at he
    exact Or.inl he
  · simp only [Bool.not_eq_true] at herr
    cases hc : sensor.channels.head? with
    | none =>
      simp only [process_sensor, herr, if_false, hc, Bool.false_eq_true,
        List.append_assoc, List.mem_append, List.mem_singleton,
        List.mem_map] at he
      rcases he with he | he | ⟨lu, _, rfl⟩
      · exact Or.inl he
      · subst he
        exact Or.inr (by simp [event_for_sensor])
      · exact Or.inr (by simp [event_for_sensor])
    | some channel0 =>
      simp only [process_sensor, herr, if_false, hc, Bool.false_eq_true,
        List.append_assoc, List.mem_append, List.mem_singleton,
        List.mem_map] at he
      rcases he with he | he | ⟨lu, _, rfl⟩ | he
      · exact Or.inl he
      · subst he
        exact Or.inr (by simp [event_for_sensor])
      · exact Or.inr (by simp [event_for_sensor])
      · subst he
        exact Or.inr (by simp [event_for_sensor])

theorem foldl_process_sensor_event_provenance (dp : String → PyDateTime)
    (clock : Nat → Int) (now : Int) (action_config : PullObservationsConfig)
    (project_id : String) (station_info : StationInfo) (units : List Unit) :
    ∀ (sensors : List Sensor) (s : RunState) (e : Event),
      e ∈ (sensors.foldl (fun acc sn =>
          process_sensor dp clock now action_config project_id station_info
            units sn acc) s).events →
      e ∈ s.events ∨ ∃ sn ∈ sensors, event_for_sensor sn e = true := by
  intro sensors
  induction sensors with
  | nil => intro s e he; exact Or.inl he
  | cons sn rest ih =>
    intro s e he
    simp only [List.foldl_cons] at he
    rcases ih _ e he with h | ⟨sn', hmem, hfor⟩
    · rcases process_sensor_event_provenance dp clock now action_config
        project_id station_info units sn s e h with h' | h'
      · exact Or.inl h'
      · exact Or.inr ⟨sn, List.mem_cons_self _ _, h'⟩
    · exact Or.inr ⟨sn', List.mem_cons_of_mem _ hmem, hfor⟩

/-- Any event added by one station iteration is on behalf of one of that
station's non-excluded sensors. -/
theorem process_station_event_provenance (dp : String → PyDateTime)
    (clock : Nat → Int) (now : Int) (action_config : PullObservationsConfig)
    (project_id : String) (units : List Unit) (station : Station)
    (s : RunState) (e : Event)
    (he : e ∈ (process_station dp clock now action_config project_id units
        station s).events) :
    e ∈ s.events ∨ ∃ sn ∈ station.sensors,
      sensor_excluded sn = false ∧ event_for_sensor sn e = true := by
  unfold process_station at he
  rcases foldl_process_sensor_event_provenance dp clock now action_config
    project_id _ units _ s e he with h | ⟨sn, hmem, hfor⟩
  · exact Or.inl h
  · rw [List.mem_filter] at hmem
    refine Or.inr ⟨sn, hmem.1, ?_, hfor⟩
    have := hmem.2
    simpa using this

theorem process_project_event_provenance (dp : String → PyDateTime)
    (clock : Nat → Int) (now : Int) (action_config : PullObservationsConfig)
    (units : List Unit) (project : Project) :
    ∀ (s : RunState) (e : Event),
      e ∈ (process_project dp clock now action_config units project s).events →
      e ∈ s.events ∨ ∃ st ∈ project.stations, ∃ sn ∈ st.sensors,
        sensor_excluded sn = false ∧ event_for_sensor sn e = true := by
  unfold process_project
  generalize project.stations = stations
  induction stations with
  | nil => intro s e he; exact Or.inl he
  | cons st rest ih =>
    intro s e he
    simp only [List.foldl_cons] at he
    rcases ih _ e he with h | ⟨st', hmem, hrest⟩
    · rcases process_station_event_provenance dp clock now action_config
        project.id units st s e h with h' | ⟨sn, hsn, hex, hfor⟩
      · exact Or.inl h'
      · exact Or.inr ⟨st, List.mem_cons_self _ _, sn, hsn, hex, hfor⟩
    · exact Or.inr ⟨st', List.mem_cons_of_mem _ hmem, hrest⟩

theorem foldl_process_project_event_provenance (dp : String → PyDateTime)
    (clock : Nat → Int) (now : Int) (action_config : PullObservationsConfig)
    (units : List Unit) :
    ∀ (projects : List Project) (s : RunState) (e : Event),
      e ∈ (projects.foldl (fun acc p =>
          process_project dp clock now action_config units p acc) s).events →
      e ∈ s.events ∨ ∃ p ∈ projects, ∃ st ∈ p.stations, ∃ sn ∈ st.sensors,
        sensor_excluded sn = false ∧ event_for_sensor sn e = true := by
  intro projects
  induction projects with
  | nil => intro s e he; exact Or.inl he
  | cons p rest ih =>
    intro s e he
    simp only [List.foldl_cons] at he
    rcases ih _ e he with h | ⟨p', hmem, hrest⟩
    · rcases process_project_event_provenance dp clock now action_config
        units p s e h with h' | ⟨st, hst, hsn⟩
      · exact Or.inl h'
      · exact Or.inr ⟨p, List.mem_cons_self _ _, st, hst, hsn⟩
    · exact Or.inr ⟨p', List.mem_cons_of_mem _ hmem, hrest⟩

/-- C8: every watermark lookup, sub-task dispatch and watermark write an
`action_pull_observations` run performs is on behalf of a catalog sensor
whose name is not excluded — so a sensor named exactly "Statistics" or
"Diagnostic Parameters" never receives any of the three, regardless of its
position; and the exclusion match is exact (case- and
whitespace-sensitive). -/
theorem claim_C8_excluded_sensors_never_processed :
    (∀ (dp : String → PyDateTime) (clock : Nat → Int)
        (action_config : PullObservationsConfig) (store : StateStore)
        (pr : ProjectResponse) (e : Event),
      e ∈ (action_pull_observations dp clock action_config store
          (some pr)).events →
      ∃ p ∈ pr.projects, ∃ st ∈ p.stations, ∃ sn ∈ st.sensors,
        sensor_excluded sn = false ∧ event_for_sensor sn e = true) ∧
    sensor_excluded { id := "x", name := "Statistics", channels := [] }
      = true ∧
    sensor_excluded
      { id := "x", name := "Diagnostic Parameters", channels := [] } = true ∧
    sensor_excluded { id := "x", name := "statistics", channels := [] }
      = false ∧
    sensor_excluded { id := "x", name := "Statistics ", channels := [] }
      = false ∧
    sensor_excluded
      { id := "x", name := "diagnostic parameters", channels := [] }
      = false := by
  refine ⟨?_, by decide, by decide, by decide, by decide, by decide⟩
  intro dp clock action_config store pr e he
  unfold action_pull_observations at he
  rcases foldl_process_project_event_provenance dp clock (clock 0)
    action_config pr.units pr.projects _ e he with h | h
  · simp at h
  · exact h

theorem claim_C8_excluded_sensors_never_processed_witness :
    ∃ p ∈ sample_catalog.projects, ∃ st ∈ p.stations, ∃ sn ∈ st.sensors,
      sensor_excluded sn = false ∧
      event_for_sensor sn (Event.read "sensor1") = true :=
  claim_C8_excluded_sensors_never_processed.1 sample_dp sample_clock {} []
    sample_catalog (Event.read "sensor1") (by decide)

/-- Running the pagination loop from page `p` when pages `p … p+n-1` announce
more pages and page `p+n` is final: the loop stops there with all per-channel
lists accumulated and `n + 1` more pages fetched. -/
theorem fetch_pages_complete_run (pages : Nat → PageBody)
    (resp : Nat → ChannelReadingsResponse) :
    ∀ (n p fuel : Nat) (acc : List (List ChannelReading)) (fetched : Nat),
      (∀ i, p ≤ i → i < p + n →
        pages i = PageBody.data (resp i) ∧ ((i : Int) < (resp i).last_page)) →
      pages (p + n) = PageBody.data (resp (p + n)) →
      (resp (p + n)).last_page ≤ ((p + n : Nat) : Int) →
      n < fuel →
      fetch_pages pages fuel p acc fetched =
        some (PagesOutcome.complete (acc ++ pages_acc resp p (n + 1))
          (fetched + (n + 1))) := by
  intro n
  induction n with
  | zero =>
    intro p fuel acc fetched hmid hlast hstop hfuel
    cases fuel with
    | zero => omega
    | succ fuel =>
      simp only [Nat.add_zero] at hlast hstop
      simp only [fetch_pages, hlast]
      rw [if_neg (not_lt.mpr hstop)]
      simp [pages_acc]
  | succ n ih =>
    intro p fuel acc fetched hmid hlast hstop hfuel
    cases fuel with
    | zero => omega
    | succ fuel =>
      have hp := hmid p (le_refl _) (by omega)
      have harith : p + 1 + n = p + (n + 1) := by omega
      simp only [fetch_pages, hp.1]
      rw [if_pos hp.2]
      have hrec := ih (p + 1) fuel
        (acc ++ (resp p).readings.map Prod.snd) (fetched + 1)
        (fun i hi1 hi2 => hmid i (by omega) (by omega))
        (by rw [harith]; exact hlast)
        (by rw [harith]; exact hstop)
        (by omega)
      rw [hrec]
      simp only [pages_acc, List.append_assoc, Option.some.injEq,
        PagesOutcome.complete.injEq]
      exact ⟨trivial, by omega⟩

/-- Running the pagination loop from page `p` when pages `p … p+n-1` announce
more pages and page `p+n` parses falsy: the loop returns the raw body text,
discarding the accumulator. -/
theorem fetch_pages_falsy_run (pages : Nat → PageBody)
    (resp : Nat → ChannelReadingsResponse) (text : String) :
    ∀ (n p fuel : Nat) (acc : List (List ChannelReading)) (fetched : Nat),
      (∀ i, p ≤ i → i < p + n →
        pages i = PageBody.data (resp i) ∧ ((i : Int) < (resp i).last_page)) →
      pages (p + n) = PageBody.falsy text →
      n < fuel →
      fetch_pages pages fuel p acc fetched =
        some (PagesOutcome.rawText text) := by
  intro n
  induction n with
  | zero =>
    intro p fuel acc fetched hmid hlast hfuel
    cases fuel with
    | zero => omega
    | succ fuel =>
      simp only [Nat.add_zero] at hlast
      simp only [fetch_pages, hlast]
  | succ n ih =>
    intro p fuel acc fetched hmid hlast hfuel
    cases fuel with
    | zero => omega
    | succ fuel =>
      have hp := hmid p (le_refl _) (by omega)
      have harith : p + 1 + n = p + (n + 1) := by omega
      simp only [fetch_pages, hp.1]
      rw [if_pos hp.2]
      exact ih (p + 1) fuel (acc ++ (resp p).readings.map Prod.snd)
        (fetched + 1) (fun i hi1 hi2 => hmid i (by omega) (by omega))
        (by rw [harith]; exact hlast) (by omega)

/-- Appending one reading to a group adds exactly one to the total count. -/
theorem count_grouped_add_to_group (m : List (Int × List ChannelReading))
    (r : ChannelReading) :
    count_grouped (add_to_group m r) = count_grouped m + 1 := by
  induction m with
  | nil => simp [add_to_group, count_grouped]
  | cons g rest ih =>
    obtain ⟨t, rs⟩ := g
    by_cases h : t == r.timestamp
    · simp [add_to_group, count_grouped, h]
      omega
    · simp only [add_to_group, h, Bool.false_eq_true, if_false,
        count_grouped, List.map_cons, List.sum_cons] at ih ⊢
      omega

theorem count_grouped_foldl (l : List ChannelReading) :
    ∀ m, count_grouped (l.foldl add_to_group m) = count_grouped m + l.length := by
  induction l with
  | nil => intro m; simp
  | cons r rest ih =>
    intro m
    simp only [List.foldl_cons, List.length_cons]
    rw [ih, count_grouped_add_to_group]
    omega

theorem count_grouped_foldl_lists (L : List (List ChannelReading)) :
    ∀ m, count_grouped (L.foldl
        (fun m channel_readings => channel_readings.foldl add_to_group m) m) =
      count_grouped m + (L.map List.length).sum := by
  induction L with
  | nil => intro m; simp
  | cons l rest ih =>
    intro m
    simp only [List.foldl_cons, List.map_cons, List.sum_cons]
    rw [ih, count_grouped_foldl]
    omega

/-- Grouping by timestamp preserves the total number of readings. -/
theorem count_grouped_group_readings (L : List (List ChannelReading)) :
    count_grouped (group_readings L) = (L.map List.length).sum := by
  unfold group_readings
  rw [count_grouped_foldl_lists]
  simp [count_grouped]

/-- C2: when pages 1..k-1 announce `last_page > current_page` and page k has
`last_page = k`, the loop fetches exactly k pages starting at page 1,
accumulates every page's per-channel reading lists, and the
grouped-by-timestamp result's total reading count equals the sum of the
lengths of all those per-page, per-channel lists. -/
theorem claim_C2_pagination_fetches_k_pages (pages : Nat → PageBody)
    (resp : Nat → ChannelReadingsResponse) (k fuel : Nat)
    (hk : 1 ≤ k) (hfuel : k ≤ fuel)
    (hmid : ∀ i, 1 ≤ i → i < k →
      pages i = PageBody.data (resp i) ∧ ((i : Int) < (resp i).last_page))
    (hlast : pages k = PageBody.data (resp k))
    (hstop : (resp k).last_page = (k : Int)) :
    fetch_pages pages fuel 1 [] 0 =
      some (PagesOutcome.complete (pages_acc resp 1 k) k) ∧
    get_sensor_readings pages fuel =
      some (ReadingsResult.grouped (group_readings (pages_acc resp 1 k))) ∧
    count_grouped (group_readings (pages_acc resp 1 k)) =
      ((pages_acc resp 1 k).map List.length).sum := by
  obtain ⟨n, rfl⟩ : ∃ n, k = n + 1 := ⟨k - 1, by omega⟩
  have h1n : 1 + n = n + 1 := by omega
  have hfetch := fetch_pages_complete_run pages resp n 1 fuel [] 0
    (fun i hi1 hi2 => hmid i hi1 (by omega))
    (by rw [h1n]; exact hlast)
    (by rw [h1n, hstop])
    (by omega)
  simp only [List.nil_append, Nat.zero_add] at hfetch
  refine ⟨hfetch, ?_, count_grouped_group_readings _⟩
  simp [get_sensor_readings, hfetch]

theorem claim_C2_pagination_fetches_k_pages_witness :
    fetch_pages two_page_pages 2 1 [] 0 =
      some (PagesOutcome.complete (pages_acc two_page_resp 1 2) 2) ∧
    get_sensor_readings two_page_pages 2 =
      some (ReadingsResult.grouped
        (group_readings (pages_acc two_page_resp 1 2))) ∧
    count_grouped (group_readings (pages_acc two_page_resp 1 2)) =
      ((pages_acc two_page_resp 1 2).map List.length).sum :=
  claim_C2_pagination_fetches_k_pages two_page_pages two_page_resp 2 2
    (by norm_num) (by norm_num)
    (fun i hi1 hi2 => by
      have : i = 1 := by omega
      subst this
      exact ⟨rfl, by norm_num [two_page_resp]⟩)
    rfl (by norm_num [two_page_resp])

/-- C10: if pages 1..j-1 announce more pages and page j's HTTP-success body
parses falsy, `get_sensor_readings` returns the raw body text instead of a
grouped mapping, discarding all readings accumulated from earlier pages. -/
theorem claim_C10_falsy_page_returns_text (pages : Nat → PageBody)
    (resp : Nat → ChannelReadingsResponse) (j fuel : Nat) (text : String)
    (hj : 1 ≤ j) (hfuel : j ≤ fuel)
    (hmid : ∀ i, 1 ≤ i → i < j →
      pages i = PageBody.data (resp i) ∧ ((i : Int) < (resp i).last_page))
    (hfalsy : pages j = PageBody.falsy text) :
    fetch_pages pages fuel 1 [] 0 = some (PagesOutcome.rawText text) ∧
    get_sensor_readings pages fuel = some (ReadingsResult.text text) := by
  obtain ⟨n, rfl⟩ : ∃ n, j = n + 1 := ⟨j - 1, by omega⟩
  have h1n : 1 + n = n + 1 := by omega
  have hfetch := fetch_pages_falsy_run pages resp text n 1 fuel [] 0
    (fun i hi1 hi2 => hmid i hi1 (by omega))
    (by rw [h1n]; exact hfalsy)
    (by omega)
  exact ⟨hfetch, by simp [get_sensor_readings, hfetch]⟩

theorem claim_C10_falsy_page_returns_text_witness :
    fetch_pages falsy_second_pages 2 1 [] 0 =
      some (PagesOutcome.rawText "raw body") ∧
    get_sensor_readings falsy_second_pages 2 =
      some (ReadingsResult.text "raw body") :=
  claim_C10_falsy_page_returns_text falsy_second_pages two_page_resp 2 2
    "raw body" (by norm_num) (by norm_num)
    (fun i hi1 hi2 => by
      have : i = 1 := by omega
      subst this
      exact ⟨rfl, by norm_num [two_page_resp]⟩)
    rfl

/-- A failed channel lookup anywhere in the readings makes the
`readings_additional` loop fail (the `None['name']` TypeError). -/
theorem readings_additional_none (ss : PullSensorObservationsPerStationConfig) :
    ∀ (rs : List ChannelReading) (m : List (String × String)),
      (∃ r ∈ rs, find_channel ss.sensor.channels r.channel_id = none) →
      readings_additional ss rs m = none := by
  intro rs
  induction rs with
  | nil => intro m h; simp at h
  | cons r rest ih =>
    intro m h
    obtain ⟨r', hr', hnone⟩ := h
    rcases List.mem_cons.mp hr' with rfl | hmem
    · simp [readings_additional, hnone]
    · cases hc : find_channel ss.sensor.channels r.channel_id with
      | none => simp [readings_additional, hc]
      | some c =>
        simp only [readings_additional, hc]
        exact ih _ ⟨r', hmem, hnone⟩

/-- `py_dict_set` key list: an existing key leaves the key list unchanged,
a new key is appended at the end. -/
theorem keys_py_dict_set (m : List (String × String)) (k v : String) :
    (py_dict_set m k v).map Prod.fst =
      if k ∈ m.map Prod.fst then m.map Prod.fst
      else m.map Prod.fst ++ [k] := by
  induction m with
  | nil => simp [py_dict_set]
  | cons kv rest ih =>
    obtain ⟨k', v'⟩ := kv
    by_cases h : k' = k
    · subst h
      simp [py_dict_set]
    · have hbeq : (k' == k) = false := by simp [h]
      simp only [py_dict_set, hbeq, Bool.false_eq_true, if_false,
        List.map_cons, List.mem_cons]
      rw [ih]
      by_cases hmem : k ∈ rest.map Prod.fst
      · simp [hmem, Ne.symm h]
      · simp [hmem, Ne.symm h]

theorem nodup_keys_py_dict_set (m : List (String × String)) (k v : String)
    (h : (m.map Prod.fst).Nodup) :
    ((py_dict_set m k v).map Prod.fst).Nodup := by
  rw [keys_py_dict_set]
  by_cases hmem : k ∈ m.map Prod.fst
  · simpa [hmem] using h
  · rw [if_neg hmem]
    refine h.append (List.nodup_singleton k) ?_
    intro a ha hb
    rw [List.mem_singleton] at hb
    subst hb
    exact hmem ha

theorem toFinset_keys_py_dict_set (m : List (String × String)) (k v : String) :
    ((py_dict_set m k v).map Prod.fst).toFinset =
      insert k (m.map Prod.fst).toFinset := by
  rw [keys_py_dict_set]
  by_cases hmem : k ∈ m.map Prod.fst
  · rw [if_pos hmem]
    exact (Finset.insert_eq_self.mpr (List.mem_toFinset.mpr hmem)).symm
  · rw [if_neg hmem, List.toFinset_append]
    ext a
    simp [or_comm]

theorem nodup_keys_py_dict_update (entries : List (String × String)) :
    ∀ m, (m.map Prod.fst).Nodup →
      ((py_dict_update m entries).map Prod.fst).Nodup := by
  induction entries with
  | nil => intro m h; exact h
  | cons kv rest ih =>
    intro m h
    exact ih _ (nodup_keys_py_dict_set m kv.1 kv.2 h)

theorem toFinset_keys_py_dict_update (entries : List (String × String)) :
    ∀ m, ((py_dict_update m entries).map Prod.fst).toFinset =
      (m.map Prod.fst).toFinset ∪ (entries.map Prod.fst).toFinset := by
  induction entries with
  | nil => intro m; simp [py_dict_update]
  | cons kv rest ih =>
    intro m
    have : py_dict_update m (kv :: rest) =
        py_dict_update (py_dict_set m kv.1 kv.2) rest := rfl
    rw [this, ih, toFinset_keys_py_dict_set]
    ext a
    simp only [Finset.mem_union, Finset.mem_insert, List.toFinset_cons,
      List.mem_toFinset, List.map_cons]
    tauto

/-- Under the totality precondition, `readings_additional` succeeds, keeps
its keys duplicate-free, and its key set is the starting keys plus, for every
resolved channel name, the name and its `" Health"` variant. -/
theorem readings_additional_spec (ss : PullSensorObservationsPerStationConfig) :
    ∀ (rs : List ChannelReading) (m : List (String × String)),
      (∀ r ∈ rs, (find_channel ss.sensor.channels r.channel_id).isSome) →
      (m.map Prod.fst).Nodup →
      ∃ m', readings_additional ss rs m = some m' ∧
        (m'.map Prod.fst).Nodup ∧
        (m'.map Prod.fst).toFinset =
          (m.map Prod.fst).toFinset ∪ additional_keys ss rs := by
  intro rs
  induction rs with
  | nil =>
    intro m hall hnodup
    refine ⟨m, rfl, hnodup, ?_⟩
    simp [additional_keys, matched_channel_names]
  | cons r rest ih =>
    intro m hall hnodup
    obtain ⟨c, hc⟩ : ∃ c,
        find_channel ss.sensor.channels r.channel_id = some c :=
      Option.isSome_iff_exists.mp (hall r (List.mem_cons_self _ _))
    obtain ⟨m', hm', hnodup', hkeys⟩ :=
      ih (py_dict_update m (reading_additional ss c r))
        (fun r' hr' => hall r' (List.mem_cons_of_mem _ hr'))
        (nodup_keys_py_dict_update _ _ hnodup)
    refine ⟨m', ?_, hnodup', ?_⟩
    · simp only [readings_additional, hc]
      exact hm'
    · rw [hkeys, toFinset_keys_py_dict_update]
      have hA : additional_keys ss (r :: rest) =
          {c.name, c.name ++ " Health"} ∪ additional_keys ss rest := by
        simp [additional_keys, matched_channel_names, List.filterMap_cons,
          hc, Finset.biUnion_insert]
      have hkv : ((reading_additional ss c r).map Prod.fst).toFinset =
          ({c.name, c.name ++ " Health"} : Finset String) := by
        simp [reading_additional]
      rw [hA, hkv]
      ext a
      simp only [Finset.mem_union, Finset.mem_insert, Finset.mem_singleton]
      tauto

/-- The key set `transform` produces has exactly two elements per distinct
resolved channel name, provided no resolved name is another resolved name
with `" Health"` appended. -/
theorem card_additional_keys (ss : PullSensorObservationsPerStationConfig)
    (readings : List ChannelReading)
    (hnc : ∀ n₁ ∈ matched_channel_names ss readings,
      ∀ n₂ ∈ matched_channel_names ss readings, n₁ ≠ n₂ ++ " Health") :
    (additional_keys ss readings).card =
      2 * (matched_channel_names ss readings).dedup.length := by
  have hne : ∀ n : String, n ≠ n ++ " Health" := by
    intro n h
    have := congrArg String.length h
    rw [String.length_append] at this
    have h7 : (" Health" : String).length = 7 := by decide
    omega
  unfold additional_keys
  rw [Finset.card_biUnion]
  · have h2 : ∀ n ∈ (matched_channel_names ss readings).toFinset,
        ({n, n ++ " Health"} : Finset String).card = 2 := by
      intro n _
      rw [Finset.card_insert_of_not_mem (by simp [hne n]),
        Finset.card_singleton]
    have hdedup : (matched_channel_names ss readings).toFinset.card =
        (matched_channel_names ss readings).dedup.length := by
      rw [show (matched_channel_names ss readings).toFinset =
          (matched_channel_names ss readings).dedup.toFinset from by
        ext a; simp [List.mem_dedup]]
      exact List.toFinset_card_of_nodup
        (List.nodup_dedup (matched_channel_names ss readings))
    rw [Finset.sum_congr rfl h2, Finset.sum_const, smul_eq_mul]
    omega
  · intro x hx y hy hxy
    have hx' := List.mem_toFinset.mp hx
    have hy' := List.mem_toFinset.mp hy
    rw [Finset.disjoint_left]
    intro a ha hb
    simp only [Finset.mem_insert, Finset.mem_singleton] at ha hb
    rcases ha with rfl | rfl
    · rcases hb with h | h
      · exact hxy h
      · exact hnc a hx' y hy' h
    · rcases hb with h | h
      · exact hnc y hy' x hx' h.symm
      · refine hxy (String.ext ?_)
        have hd := congrArg String.data h
        simp only [String.data_append] at hd
        exact List.append_cancel_right hd

/-- C9 (amended): `transform` is partial — a reading whose `channel_id`
matches no channel of the sensor snapshot makes it fail (the `None['name']`
access); when every reading's channel resolves it is total, and —
provided no resolved channel name equals another resolved name followed by
`" Health"` — the `additional` map holds exactly two entries per distinct
resolved channel name (value-with-unit and health-percentage). -/
theorem claim_C9_transform_partiality
    (station_sensor : PullSensorObservationsPerStationConfig)
    (timestamp : Int) (readings : List ChannelReading) :
    ((∃ r ∈ readings,
        find_channel station_sensor.sensor.channels r.channel_id = none) →
      transform station_sensor timestamp readings = none) ∧
    ((∀ r ∈ readings,
        (find_channel station_sensor.sensor.channels r.channel_id).isSome) →
      ∃ obs, transform station_sensor timestamp readings = some obs ∧
        ((∀ n₁ ∈ matched_channel_names station_sensor readings,
          ∀ n₂ ∈ matched_channel_names station_sensor readings,
          n₁ ≠ n₂ ++ " Health") →
          obs.additional.length =
            2 * (matched_channel_names station_sensor readings).dedup.length)) := by
  constructor
  · intro h
    simp [transform, readings_additional_none station_sensor readings [] h]
  · intro hall
    obtain ⟨m', hm', hnodup', hkeys⟩ :=
      readings_additional_spec station_sensor readings [] hall (by simp)
    simp only [List.map_nil, List.toFinset_nil, Finset.empty_union] at hkeys
    have htr : transform station_sensor timestamp readings =
        some (transform_record station_sensor timestamp m') := by
      simp [transform, hm']
    refine ⟨_, htr, ?_⟩
    intro hnc
    show m'.length = _
    have hlen : m'.length = (m'.map Prod.fst).length :=
      (List.length_map _ _).symm
    have hcard : (m'.map Prod.fst).toFinset.card = (m'.map Prod.fst).length :=
      List.toFinset_card_of_nodup hnodup'
    rw [hlen, ← hcard, hkeys]
    exact card_additional_keys station_sensor readings hnc

theorem claim_C9_transform_partiality_witness :
    ∃ obs, transform transform_config 0 [sample_reading_a] = some obs ∧
      ((∀ n₁ ∈ matched_channel_names transform_config [sample_reading_a],
        ∀ n₂ ∈ matched_channel_names transform_config [sample_reading_a],
        n₁ ≠ n₂ ++ " Health") →
        obs.additional.length =
          2 * (matched_channel_names transform_config
            [sample_reading_a]).dedup.length) :=
  (claim_C9_transform_partiality transform_config 0 [sample_reading_a]).2
    (by decide)

/-- C9 counterexample to the claim as stated: with channels named `"X"` and
`"X Health"` (both matched by a reading), the second reading's value entry
overwrites the first reading's health entry, so the `additional` map ends up
with 3 entries although there are 2 distinct channel names — not exactly two
entries per distinct channel name. -/
theorem claim_C9_transform_counterexample :
    (transform collide_config 0 collide_readings).map
        (fun obs => obs.additional.length) = some 3 ∧
    (matched_channel_names collide_config collide_readings).dedup.length
      = 2 ∧
    (3 : Nat) ≠ 2 * 2 := by
  refine ⟨by decide, by decide, by decide⟩

end StevensConnect
